import Mathlib

/-!
Verification of the strawberry-reminder modules (`reminder` and `countdown`)
against their natural-language specification.

The Python source is shallowly embedded: datetimes become integers (seconds),
database rows become a `ReminderItem` structure, the SQLAlchemy session becomes
an explicit `List ReminderItem`, and Python exceptions become `Except`.
-/

namespace StrawberryReminder

/-- The `ReminderStatus` enum from `src/reminder/database.py`. -/
inductive ReminderStatus where
  | WAITING
  | REMINDED
  | FAILED
deriving DecidableEq, Repr

/-- A row of the `reminder_reminder_reminderitem` table
(`ReminderItem` in `src/reminder/database.py`).  Datetimes are integers. -/
structure ReminderItem where
  idx : Nat
  guild_id : Int
  author_id : Int
  recipient_id : Int
  permalink : String
  message : String
  origin_date : Int
  remind_date : Int
  status : ReminderStatus
deriving DecidableEq, Repr

/-- One step of `ORDER BY remind_date DESC`: insert into a descending list. -/
def insertDesc (x : ReminderItem) : List ReminderItem → List ReminderItem
  | [] => [x]
  | y :: ys => if x.remind_date ≤ y.remind_date then y :: insertDesc x ys else x :: y :: ys

/-- The `ORDER BY remind_date DESC` ordering in `ReminderItem.get_all`. -/
def sortByRemindDateDesc : List ReminderItem → List ReminderItem
  | [] => []
  | x :: xs => insertDesc x (sortByRemindDateDesc xs)

/-- The conjunction of the optional filters of `ReminderItem.get_all`
(`src/reminder/database.py:119-143`).  `none` means the argument was not
passed; each date filter is strict, as in the source
(`origin_date > min`, `origin_date < max`, `remind_date > min`,
`remind_date < max`). -/
def matchesFilters (guild : Option Int) (idx : Option Nat) (recipient : Option Int)
    (status : Option ReminderStatus)
    (min_origin_date max_origin_date min_remind_date max_remind_date : Option Int)
    (item : ReminderItem) : Bool :=
  (match guild with | none => true | some g => decide (item.guild_id = g)) &&
  (match idx with | none => true | some i => decide (item.idx = i)) &&
  (match recipient with | none => true | some r => decide (item.recipient_id = r)) &&
  (match status with | none => true | some s => decide (item.status = s)) &&
  (match min_origin_date with | none => true | some d => decide (d < item.origin_date)) &&
  (match max_origin_date with | none => true | some d => decide (item.origin_date < d)) &&
  (match min_remind_date with | none => true | some d => decide (d < item.remind_date)) &&
  (match max_remind_date with | none => true | some d => decide (item.remind_date < d))

/-- Embedding of `ReminderItem.get_all` (`src/reminder/database.py:93-147`): filter the
session's rows by the passed arguments, then order by `remind_date`
descending.  It returns `query.all()`, always a list, never `None`. -/
def get_all (db : List ReminderItem) (guild : Option Int) (idx : Option Nat)
    (recipient : Option Int) (status : Option ReminderStatus)
    (min_origin_date max_origin_date min_remind_date max_remind_date : Option Int) :
    List ReminderItem :=
  sortByRemindDateDesc (db.filter
    (matchesFilters guild idx recipient status
      min_origin_date max_origin_date min_remind_date max_remind_date))

theorem mem_insertDesc (x a : ReminderItem) (l : List ReminderItem) :
    a ∈ insertDesc x l ↔ a = x ∨ a ∈ l := by
  induction l with
  | nil => simp [insertDesc]
  | cons y ys ih =>
    simp only [insertDesc]
    split
    · simp only [List.mem_cons, ih]; tauto
    · simp only [List.mem_cons]

theorem mem_sortByRemindDateDesc (a : ReminderItem) (l : List ReminderItem) :
    a ∈ sortByRemindDateDesc l ↔ a ∈ l := by
  induction l with
  | nil => simp [sortByRemindDateDesc]
  | cons x xs ih =>
    simp [sortByRemindDateDesc, mem_insertDesc, ih, List.mem_cons]

theorem mem_get_all (db : List ReminderItem) (guild : Option Int) (idx : Option Nat)
    (recipient : Option Int) (status : Option ReminderStatus)
    (minO maxO minR maxR : Option Int) (a : ReminderItem) :
    a ∈ get_all db guild idx recipient status minO maxO minR maxR ↔
      a ∈ db ∧ matchesFilters guild idx recipient status minO maxO minR maxR a = true := by
  simp [get_all, mem_sortByRemindDateDesc, List.mem_filter]

/-- The selection one tick of the 30-second poll loop hands to `_remind`
(`Reminder.reminder`, `src/reminder/module.py:29-39`):
`get_all(status=WAITING, max_remind_date=now + 30)`. -/
def tick_selection (db : List ReminderItem) (now : Int) : List ReminderItem :=
  get_all db none none none (some ReminderStatus.WAITING) none none none (some (now + 30))

theorem mem_tick_selection (db : List ReminderItem) (now : Int) (a : ReminderItem) :
    a ∈ tick_selection db now ↔
      a ∈ db ∧ a.status = ReminderStatus.WAITING ∧ a.remind_date < now + 30 := by
  simp [tick_selection, mem_get_all, matchesFilters]

/-- A concrete WAITING item whose `remind_date` lies exactly on a tick's
horizon `now + 30` (with `now = 0`). -/
def horizonItem : ReminderItem :=
  { idx := 1, guild_id := 0, author_id := 1, recipient_id := 1, permalink := "",
    message := "", origin_date := 0, remind_date := 30, status := ReminderStatus.WAITING }

/-- C1 (counterexample): the claim includes an item whose due time equals the
horizon exactly, but `get_all` filters with strict `remind_date < max_remind_date`
(`src/reminder/database.py:143`), so a WAITING item due exactly at `now + 30`
is not selected by the tick starting at `now = 0`. -/
theorem C1_horizon_item_not_selected :
    horizonItem ∈ [horizonItem] ∧
    horizonItem.status = ReminderStatus.WAITING ∧
    horizonItem.remind_date ≤ 0 + 30 ∧
    horizonItem ∉ tick_selection [horizonItem] 0 := by
  refine ⟨List.mem_singleton.mpr rfl, rfl, by decide, ?_⟩
  intro h
  have := (mem_tick_selection [horizonItem] 0 horizonItem).mp h
  exact absurd this.2.2 (by decide)

/-- C1 (amended): for every tick of the poll loop, the set of items handed to
the delivery attempter is exactly the set of stored items whose status is
WAITING and whose due time is strictly less than the tick's start time plus
the 30-second interval; an item due exactly at the horizon is excluded. -/
theorem C1_tick_selection_characterization (db : List ReminderItem) (now : Int)
    (item : ReminderItem) :
    item ∈ tick_selection db now ↔
      item ∈ db ∧ item.status = ReminderStatus.WAITING ∧ item.remind_date < now + 30 := by
  exact mem_tick_selection db now item

/-- A concrete WAITING item due strictly inside the tick's horizon. -/
def dueSoonItem : ReminderItem :=
  { idx := 8, guild_id := 0, author_id := 1, recipient_id := 1, permalink := "",
    message := "", origin_date := 0, remind_date := 10, status := ReminderStatus.WAITING }

/-- C1 witness: the characterization evaluated on a concrete store and tick. -/
theorem C1_tick_selection_characterization_witness :
    dueSoonItem ∈ tick_selection [dueSoonItem] 0 ↔
      dueSoonItem ∈ [dueSoonItem] ∧ dueSoonItem.status = ReminderStatus.WAITING ∧
        dueSoonItem.remind_date < 0 + 30 :=
  C1_tick_selection_characterization [dueSoonItem] 0 dueSoonItem

/-- C2: an item in a terminal status (REMINDED or FAILED) is never handed to
the delivery attempter by any tick of the poll loop: the loop queries only
`status = WAITING` items (`src/reminder/module.py:33-35`), so until something
resets the status to WAITING the item is never re-attempted. -/
theorem C2_terminal_never_selected (db : List ReminderItem) (now : Int)
    (item : ReminderItem)
    (h : item.status = ReminderStatus.REMINDED ∨ item.status = ReminderStatus.FAILED) :
    item ∉ tick_selection db now := by
  intro hmem
  have hw := ((mem_tick_selection db now item).mp hmem).2.1
  rcases h with h | h <;> rw [h] at hw <;> exact ReminderStatus.noConfusion hw

/-- A concrete FAILED item, due long ago. -/
def failedItem : ReminderItem :=
  { idx := 2, guild_id := 0, author_id := 1, recipient_id := 1, permalink := "",
    message := "", origin_date := 0, remind_date := -100, status := ReminderStatus.FAILED }

/-- C2 witness: the FAILED item above, although long overdue, is not selected
by a tick at `now = 0`. -/
theorem C2_terminal_never_selected_witness :
    (failedItem.status = ReminderStatus.REMINDED ∨
      failedItem.status = ReminderStatus.FAILED) ∧
    failedItem ∉ tick_selection [failedItem] 0 :=
  ⟨Or.inr rfl, C2_terminal_never_selected [failedItem] 0 failedItem (Or.inr rfl)⟩

/-- A Discord user/member, as far as the reminder module needs it. -/
structure Member where
  id : Int
  display_name : String
deriving DecidableEq, Repr

/-- Outcome of `reminded_user.send(embed=embed)`: success, or an
`HTTPException`/`Forbidden` raised by the transport. -/
inductive SendOutcome where
  | ok
  | httpError
deriving DecidableEq, Repr

/-- The observability events `_remind` can emit, by level and message. -/
inductive LogEvent where
  | warningOutOfReach
  | warningBlockedPM
  | debugSent (idx : Nat) (recipient : String)
deriving DecidableEq, Repr

/-- What one call of `_remind` did: the item's final status, the statuses
persisted by `item.save()` in order, the log events, and how many times the
delivery transport was called. -/
structure RemindResult where
  finalStatus : ReminderStatus
  persisted : List ReminderStatus
  events : List LogEvent
  sendCalls : Nat
deriving DecidableEq, Repr

/-- Embedding of `Reminder._remind` (`src/reminder/module.py:47-85`), given the result of
recipient resolution and the outcome the transport would give for the single
`send` call. -/
def remind (item : ReminderItem) (reminded_user : Option Member)
    (send : SendOutcome) : RemindResult :=
  match reminded_user with
  | none =>
      { finalStatus := ReminderStatus.FAILED, persisted := [ReminderStatus.FAILED],
        events := [LogEvent.warningOutOfReach], sendCalls := 0 }
  | some user =>
      match send with
      | SendOutcome.httpError =>
          { finalStatus := ReminderStatus.FAILED, persisted := [ReminderStatus.FAILED],
            events := [LogEvent.warningBlockedPM], sendCalls := 1 }
      | SendOutcome.ok =>
          { finalStatus := ReminderStatus.REMINDED, persisted := [ReminderStatus.REMINDED],
            events := [LogEvent.debugSent item.idx user.display_name], sendCalls := 1 }

/-- C3: every delivery attempt persists exactly one terminal status before
returning — FAILED with a warning event and no send call when the recipient
cannot be resolved, FAILED with a warning event after the single failing send
call on a transport/permission error, REMINDED with a debug event (item id and
recipient) after the single successful send call. -/
theorem C3_remind_characterization (item : ReminderItem) (user : Option Member)
    (send : SendOutcome) :
    (remind item user send).persisted = [(remind item user send).finalStatus] ∧
    ((remind item user send).finalStatus = ReminderStatus.FAILED ∨
      (remind item user send).finalStatus = ReminderStatus.REMINDED) ∧
    (user = none →
      (remind item user send).finalStatus = ReminderStatus.FAILED ∧
      (remind item user send).sendCalls = 0 ∧
      (remind item user send).events = [LogEvent.warningOutOfReach]) ∧
    (∀ u, user = some u →
      (remind item user send).sendCalls = 1 ∧
      (send = SendOutcome.httpError →
        (remind item user send).finalStatus = ReminderStatus.FAILED ∧
        (remind item user send).events = [LogEvent.warningBlockedPM]) ∧
      (send = SendOutcome.ok →
        (remind item user send).finalStatus = ReminderStatus.REMINDED ∧
        (remind item user send).events = [LogEvent.debugSent item.idx u.display_name])) := by
  cases user <;> cases send <;> simp [remind]

/-- A concrete due item for exercising `_remind`. -/
def dueItem : ReminderItem :=
  { idx := 7, guild_id := 0, author_id := 1, recipient_id := 9, permalink := "",
    message := "hello", origin_date := 0, remind_date := 5,
    status := ReminderStatus.WAITING }

/-- A concrete resolved recipient. -/
def resolvedUser : Member := { id := 9, display_name := "u" }

/-- C3 witness: the characterization applied to a concrete successful
delivery, discharging the resolution hypothesis. -/
theorem C3_remind_characterization_witness :
    (remind dueItem (some resolvedUser) SendOutcome.ok).sendCalls = 1 ∧
    (remind dueItem (some resolvedUser) SendOutcome.ok).finalStatus
      = ReminderStatus.REMINDED ∧
    (remind dueItem (some resolvedUser) SendOutcome.ok).events
      = [LogEvent.debugSent dueItem.idx resolvedUser.display_name] :=
  have h := (C3_remind_characterization dueItem (some resolvedUser)
    SendOutcome.ok).2.2.2 resolvedUser rfl
  ⟨h.1, (h.2.2 rfl).1, (h.2.2 rfl).2⟩

/-- The bot's view of the world for member lookup: `get_guild` per guild id
(`none` when the bot is not in that guild, as `bot.get_guild` returns `None`
then), each guild giving a member lookup, plus `fetch_user` (`none` models a
`discord.errors.NotFound`). -/
structure BotState where
  get_guild : Int → Option (Int → Option Member)
  fetch_user : Int → Option Member

/-- Embedding of `Reminder._get_member` (`src/reminder/module.py:161-174`).  When
`guild_id > 0` and `bot.get_guild` returns `None`, the source immediately
evaluates `guild.get_member(user_id)` on `None`, raising `AttributeError`;
the uncaught exception is modelled as `Except.error`.  Only `NotFound` from
`fetch_user` is caught. -/
def get_member (bot : BotState) (user_id : Int) (guild_id : Int) :
    Except Unit (Option Member) :=
  if 0 < guild_id then
    match bot.get_guild guild_id with
    | none => Except.error ()
    | some members =>
        match members user_id with
        | some u => Except.ok (some u)
        | none => Except.ok (bot.fetch_user user_id)
  else Except.ok (bot.fetch_user user_id)

/-- Embedding of `Reminder._remind` including the recipient lookup, so that an exception
escaping `_get_member` propagates (`_remind` has no handler for it). -/
def remind_exc (bot : BotState) (send : Int → SendOutcome) (item : ReminderItem) :
    Except Unit RemindResult :=
  match get_member bot item.recipient_id item.guild_id with
  | Except.error e => Except.error e
  | Except.ok user => Except.ok (remind item user (send item.recipient_id))

/-- The `for item in items: await self._remind(item)` loop of a tick
(`src/reminder/module.py:37-39`).  There is no `try`/`except` around the body,
so an exception raised while processing one item aborts the whole loop. -/
def remind_loop (bot : BotState) (send : Int → SendOutcome) :
    List ReminderItem → Except Unit (List RemindResult)
  | [] => Except.ok []
  | item :: rest =>
      match remind_exc bot send item with
      | Except.error e => Except.error e
      | Except.ok r =>
          match remind_loop bot send rest with
          | Except.error e => Except.error e
          | Except.ok rs => Except.ok (r :: rs)

/-- A bot that is in no guild and finds no user by fetch. -/
def goneBot : BotState :=
  { get_guild := fun _ => none, fetch_user := fun _ => none }

/-- A due item whose guild the bot has left. -/
def guildGoneItem : ReminderItem :=
  { idx := 3, guild_id := 5, author_id := 1, recipient_id := 1, permalink := "",
    message := "", origin_date := 0, remind_date := 10, status := ReminderStatus.WAITING }

/-- A second due item in the same tick, with no guild scope. -/
def directItem : ReminderItem :=
  { idx := 4, guild_id := 0, author_id := 2, recipient_id := 2, permalink := "",
    message := "", origin_date := 0, remind_date := 11, status := ReminderStatus.WAITING }

/-- C5: with two due items where the first item's guild is out of the bot's
reach (`bot.get_guild` returns `None`), the `AttributeError` raised inside
`_get_member` propagates out of the unguarded loop and aborts the tick, so the
second item is never processed — even though processing the second item alone
raises no exception.  This contradicts the claimed containment. -/
theorem C5_exception_aborts_tick :
    remind_loop goneBot (fun _ => SendOutcome.ok) [guildGoneItem, directItem]
      = Except.error () ∧
    remind_loop goneBot (fun _ => SendOutcome.ok) [directItem]
      = Except.ok [remind directItem none SendOutcome.ok] := by
  constructor <;> rfl

/-- Embedding of `ReminderItem.add` (`src/reminder/database.py:49-91`).  The server
discards the passed `origin_date` and sets `origin_date = datetime.now()`;
it raises `ValueError` (modelled as `Except.error ()`) when
`remind_date < origin_date`, before anything is added to the session;
otherwise it builds a row with `status = WAITING`, commits it, and returns
it.  `author_guild` is `author.guild.id` when the author has a guild,
else the `guild_id` falls back to `0`. -/
def ReminderItem.add (db : List ReminderItem) (next_idx : Nat)
    (author_guild : Option Int) (author_id recipient_id : Int)
    (permalink message : String) (remind_date : Int) (now : Int) :
    Except Unit (ReminderItem × List ReminderItem) :=
  let origin_date := now
  if remind_date < origin_date then Except.error ()
  else
    let item : ReminderItem :=
      { idx := next_idx,
        guild_id := match author_guild with | some g => g | none => 0,
        author_id := author_id, recipient_id := recipient_id,
        permalink := permalink, message := message,
        origin_date := origin_date, remind_date := remind_date,
        status := ReminderStatus.WAITING }
    Except.ok (item, db ++ [item])

/-- The row created by an `add` at `now = 0` with `remind_date = 0`. -/
def boundaryItem : ReminderItem :=
  { idx := 1, guild_id := 0, author_id := 1, recipient_id := 1, permalink := "",
    message := "", origin_date := 0, remind_date := 0,
    status := ReminderStatus.WAITING }

/-- C4 (counterexample): a creation request with `remind_date` equal to the
server-assigned `origin_date` satisfies `due_timestamp <= origin_timestamp`,
yet `add` does not fail — the guard is the strict `remind_date < origin_date`
(`src/reminder/database.py:75`) — and a WAITING record is persisted. -/
theorem C4_equal_due_time_accepted :
    boundaryItem.remind_date ≤ boundaryItem.origin_date ∧
    ReminderItem.add [] 1 none 1 1 "" "" 0 0
      = Except.ok (boundaryItem, [boundaryItem]) :=
  ⟨le_refl 0, rfl⟩

/-- C4 (amended): insertion fails with `ValueError` exactly when the requested
`remind_date` is strictly earlier than the server-assigned `origin_date`
(`now` at insert time); on failure nothing is persisted (the error is raised
before `session.add`), and otherwise the returned record has status WAITING,
origin time `now`, the requested due time, and is appended to the store. -/
theorem C4_add_characterization (db : List ReminderItem) (next_idx : Nat)
    (author_guild : Option Int) (author_id recipient_id : Int)
    (permalink message : String) (remind_date now : Int) :
    (ReminderItem.add db next_idx author_guild author_id recipient_id
        permalink message remind_date now = Except.error () ↔ remind_date < now) ∧
    (∀ item db',
      ReminderItem.add db next_idx author_guild author_id recipient_id
          permalink message remind_date now = Except.ok (item, db') →
        item.status = ReminderStatus.WAITING ∧ item.origin_date = now ∧
        item.remind_date = remind_date ∧ db' = db ++ [item]) := by
  unfold ReminderItem.add
  by_cases h : remind_date < now
  · simp [h]
  · simp only [if_neg h]
    refine ⟨by simp [h], ?_⟩
    intro item db' heq
    obtain ⟨h1, h2⟩ := Prod.mk.injEq _ _ _ _ ▸ Except.ok.injEq _ _ ▸ heq
    subst h1; subst h2
    exact ⟨rfl, rfl, rfl, rfl⟩

/-- The row created by an `add` at `now = 0` with `remind_date = 10`. -/
def futureItem : ReminderItem :=
  { idx := 1, guild_id := 0, author_id := 1, recipient_id := 1, permalink := "",
    message := "", origin_date := 0, remind_date := 10,
    status := ReminderStatus.WAITING }

/-- C4 witness: the characterization applied to a concrete accepted request. -/
theorem C4_add_characterization_witness :
    futureItem.status = ReminderStatus.WAITING ∧ futureItem.origin_date = 0 ∧
    futureItem.remind_date = 10 ∧ [futureItem] = ([] : List ReminderItem) ++ [futureItem] :=
  (C4_add_characterization [] 1 none 1 1 "" "" 10 0).2 futureItem [futureItem] rfl

/-- Modelled from the spec: `ReminderItem.batch_delete` is absent from
`src/reminder/database.py`; only its caller `Reminder.reminder_clean`
(`src/reminder/module.py:518-535`) appears in the source.  Spec:
`batch_delete(scope_id, user_id, older_than) -> count` deletes all of that
user's records in that scope that are in a terminal status (REMINDED or
FAILED) and whose due time precedes `older_than`, and returns the count
removed. -/
def cleanTarget (guild_id user_id older_than : Int) (i : ReminderItem) : Bool :=
  decide (i.guild_id = guild_id) && decide (i.recipient_id = user_id) &&
  (decide (i.status = ReminderStatus.REMINDED) ||
    decide (i.status = ReminderStatus.FAILED)) &&
  decide (i.remind_date < older_than)

/-- Modelled from the spec (continued): `batch_delete` removes the targeted
rows and reports how many it removed. -/
def batch_delete (db : List ReminderItem) (guild_id user_id : Int)
    (older_than : Int) : Nat × List ReminderItem :=
  ((db.filter (cleanTarget guild_id user_id older_than)).length,
    db.filter (fun i => ! cleanTarget guild_id user_id older_than i))

theorem cleanTarget_iff (guild_id user_id older_than : Int) (i : ReminderItem) :
    cleanTarget guild_id user_id older_than i = true ↔
      (i.guild_id = guild_id ∧ i.recipient_id = user_id ∧
        (i.status = ReminderStatus.REMINDED ∨ i.status = ReminderStatus.FAILED) ∧
        i.remind_date < older_than) := by
  simp only [cleanTarget, Bool.and_eq_true, Bool.or_eq_true, decide_eq_true_eq]
  tauto

theorem cleanTarget_eq_false (guild_id user_id older_than : Int) (i : ReminderItem) :
    cleanTarget guild_id user_id older_than i = false ↔
      ¬(i.guild_id = guild_id ∧ i.recipient_id = user_id ∧
        (i.status = ReminderStatus.REMINDED ∨ i.status = ReminderStatus.FAILED) ∧
        i.remind_date < older_than) := by
  rw [← cleanTarget_iff guild_id user_id older_than i]
  cases cleanTarget guild_id user_id older_than i <;> simp

/-- C6: the purge removes exactly the caller's terminal-status records in the
scope that are older than the cutoff — the remaining store holds an item iff
it was stored and is not such a target — and the returned count is exactly
the number of records removed (removed plus remaining equals the original
size). -/
theorem C6_batch_delete_exact (db : List ReminderItem) (guild_id user_id older_than : Int) :
    (∀ i, i ∈ (batch_delete db guild_id user_id older_than).2 ↔
      i ∈ db ∧ ¬(i.guild_id = guild_id ∧ i.recipient_id = user_id ∧
        (i.status = ReminderStatus.REMINDED ∨ i.status = ReminderStatus.FAILED) ∧
        i.remind_date < older_than)) ∧
    (batch_delete db guild_id user_id older_than).1
      + (batch_delete db guild_id user_id older_than).2.length = db.length := by
  constructor
  · intro i
    simp only [batch_delete, List.mem_filter, Bool.not_eq_true',
      cleanTarget_eq_false]
  · show (List.filter _ db).length + (List.filter _ db).length = db.length
    exact (List.length_eq_length_filter_add _).symm

/-- A REMINDED record of user 1 in guild 0, due far in the past. -/
def staleItem : ReminderItem :=
  { idx := 5, guild_id := 0, author_id := 1, recipient_id := 1, permalink := "",
    message := "", origin_date := -200, remind_date := -150,
    status := ReminderStatus.REMINDED }

/-- A WAITING record of the same user, due in the future. -/
def pendingItem : ReminderItem :=
  { idx := 6, guild_id := 0, author_id := 1, recipient_id := 1, permalink := "",
    message := "", origin_date := 0, remind_date := 100,
    status := ReminderStatus.WAITING }

/-- C6 witness: purging user 1 in guild 0 with cutoff 0 keeps the WAITING
item, drops the stale REMINDED one, and counts one removal. -/
theorem C6_batch_delete_exact_witness :
    pendingItem ∈ (batch_delete [staleItem, pendingItem] 0 1 0).2 ∧
    staleItem ∉ (batch_delete [staleItem, pendingItem] 0 1 0).2 ∧
    (batch_delete [staleItem, pendingItem] 0 1 0).1
      + (batch_delete [staleItem, pendingItem] 0 1 0).2.length = 2 := by
  have h := C6_batch_delete_exact [staleItem, pendingItem] 0 1 0
  refine ⟨(h.1 pendingItem).mpr ⟨by simp, ?_⟩, ?_, h.2⟩
  · rintro ⟨-, -, hs, -⟩
    rcases hs with hs | hs <;> exact ReminderStatus.noConfusion hs
  · intro hmem
    have := ((h.1 staleItem).mp hmem).2
    exact this ⟨rfl, rfl, Or.inl rfl, by decide⟩

/-- The replies `reminder reschedule` can produce.  `crash` stands for an
unhandled `IndexError`. -/
inductive RescheduleReply where
  | notFound
  | crash
  | cantRescheduleOthers
  | parseError
  | mustBeFuture
  | timedOut
  | rescheduled
  | aborted
deriving DecidableEq, Repr

/-- Effect of `item.save()` after mutating a fetched row: the session persists the
mutation under the row's primary key. -/
def save_item (db : List ReminderItem) (item : ReminderItem) : List ReminderItem :=
  db.map (fun i => if i.idx = item.idx then item else i)

/-- Embedding of `Reminder.reminder_reschedule` (`src/reminder/module.py:404-477`).
`parsed` is the result of `utils.time.parse_datetime` (`none` = `ParserError`)
and `confirm` the ConfirmView outcome (`none` = timeout).  The source guards
the lookup with `if query is None:`, but `get_all` returns `query.all()`, a
list, never `None`, so that branch (the `none` arm below) is unreachable;
`query = query[0]` then raises `IndexError` on an empty list, modelled as the
`crash` reply. -/
def reminder_reschedule (db : List ReminderItem) (idx : Nat) (caller_id : Int)
    (parsed : Option Int) (now : Int) (confirm : Option Bool) :
    RescheduleReply × List ReminderItem :=
  match (some (get_all db none (some idx) none none none none none none) :
      Option (List ReminderItem)) with
  | none => (RescheduleReply.notFound, db)
  | some query =>
      match query with
      | [] => (RescheduleReply.crash, db)
      | item :: _ =>
          if item.recipient_id ≠ caller_id then
            (RescheduleReply.cantRescheduleOthers, db)
          else
            match parsed with
            | none => (RescheduleReply.parseError, db)
            | some date =>
                if date < now then (RescheduleReply.mustBeFuture, db)
                else
                  match confirm with
                  | none => (RescheduleReply.timedOut, db)
                  | some true =>
                      (RescheduleReply.rescheduled,
                        save_item db
                          { item with remind_date := date,
                                      status := ReminderStatus.WAITING })
                  | some false => (RescheduleReply.aborted, db)

/-- C7: a reschedule request for an id that matches no stored item does not
produce the does-not-exist reply — `get_all` returns `[]`, `[] is None` is
false, and `query[0]` raises an uncaught `IndexError`. -/
theorem C7_nonexistent_id_crashes :
    reminder_reschedule [] 1 1 none 0 none = (RescheduleReply.crash, []) := rfl

theorem save_item_idx_eq (db : List ReminderItem) (item j : ReminderItem)
    (hj : j ∈ save_item db item) (hidx : j.idx = item.idx) : j = item := by
  simp only [save_item, List.mem_map] at hj
  obtain ⟨i, _, hif⟩ := hj
  by_cases h : i.idx = item.idx
  · rw [if_pos h] at hif; exact hif.symm
  · rw [if_neg h] at hif
    subst hif
    exact absurd hidx h

theorem save_item_mem_self (db : List ReminderItem) (item i : ReminderItem)
    (hi : i ∈ db) (h : i.idx = item.idx) : item ∈ save_item db item := by
  simp only [save_item, List.mem_map]
  exact ⟨i, hi, by rw [if_pos h]⟩

/-- The confirmed branch of `RemindModal._edit_reminder`
(`src/reminder/objects.py:147-151`): set the new `remind_date`, reset the
status to WAITING, set the new `message`, then save. -/
def edit_reminder_apply (item : ReminderItem) (date : Int) (message : String) :
    ReminderItem :=
  { item with remind_date := date, status := ReminderStatus.WAITING,
              message := message }

/-- C8: a confirmed reschedule of an existing item owned by the caller with a
future date persists the item with the new due date and status reset to
WAITING (any stored row with that id now carries the new date and WAITING,
and if the row was stored the updated row is stored); and a confirmed modal
edit additionally persists the newly supplied message text. -/
theorem C8_confirmed_update_persisted (db : List ReminderItem) (idx : Nat)
    (caller_id date now : Int) (item : ReminderItem) (rest : List ReminderItem)
    (hq : get_all db none (some idx) none none none none none none = item :: rest)
    (howner : item.recipient_id = caller_id)
    (hfut : ¬ date < now) :
    reminder_reschedule db idx caller_id (some date) now (some true)
      = (RescheduleReply.rescheduled,
         save_item db { item with remind_date := date,
                                  status := ReminderStatus.WAITING }) ∧
    (∀ j, j ∈ (reminder_reschedule db idx caller_id (some date) now (some true)).2 →
      j.idx = item.idx →
      j.remind_date = date ∧ j.status = ReminderStatus.WAITING ∧
        j.message = item.message) ∧
    (item ∈ db →
      { item with remind_date := date, status := ReminderStatus.WAITING }
        ∈ (reminder_reschedule db idx caller_id (some date) now (some true)).2) ∧
    (∀ (it : ReminderItem) (d : Int) (m : String) (db2 : List ReminderItem)
        (j : ReminderItem),
      j ∈ save_item db2 (edit_reminder_apply it d m) →
      j.idx = it.idx →
      j.remind_date = d ∧ j.status = ReminderStatus.WAITING ∧ j.message = m) := by
  have hrun : reminder_reschedule db idx caller_id (some date) now (some true)
      = (RescheduleReply.rescheduled,
         save_item db { item with remind_date := date,
                                  status := ReminderStatus.WAITING }) := by
    unfold reminder_reschedule
    rw [hq]
    simp [howner, hfut]
  refine ⟨hrun, ?_, ?_, ?_⟩
  · intro j hj hidx
    rw [hrun] at hj
    have := save_item_idx_eq db _ j hj hidx
    subst this
    exact ⟨rfl, rfl, rfl⟩
  · intro hmem
    rw [hrun]
    exact save_item_mem_self db _ item hmem rfl
  · intro it d m db2 j hj hidx
    have := save_item_idx_eq db2 _ j hj hidx
    subst this
    exact ⟨rfl, rfl, rfl⟩

/-- A WAITING item owned by user 3, due at time 50. -/
def reschedItem : ReminderItem :=
  { idx := 11, guild_id := 0, author_id := 3, recipient_id := 3, permalink := "",
    message := "m", origin_date := 0, remind_date := 50,
    status := ReminderStatus.WAITING }

/-- C8 witness: user 3 confirms rescheduling their reminder 11 to time 60. -/
theorem C8_confirmed_update_persisted_witness :
    get_all [reschedItem] none (some 11) none none none none none none
      = [reschedItem] ∧
    reschedItem.recipient_id = 3 ∧ ¬ (60 : Int) < 0 ∧
    reminder_reschedule [reschedItem] 11 3 (some 60) 0 (some true)
      = (RescheduleReply.rescheduled,
         save_item [reschedItem]
           { reschedItem with remind_date := 60,
                              status := ReminderStatus.WAITING }) :=
  ⟨rfl, rfl, by decide,
    (C8_confirmed_update_persisted [reschedItem] 11 3 60 0 reschedItem [] rfl rfl
      (by decide)).1⟩

/-- The replies `reminder delete` can produce. -/
inductive DeleteReply where
  | notFound
  | cantDeleteOthers
  | timedOut
  | deleted
  | aborted
deriving DecidableEq, Repr

/-- Embedding of `Reminder.reminder_delete` (`src/reminder/module.py:479-516`).  The lookup
is guarded with `if not query:` — an empty list is falsy — so the missing-id
reply is reachable here.  `query.delete()` removes the fetched row from the
session by its primary key. -/
def reminder_delete (db : List ReminderItem) (idx : Nat) (caller_id : Int)
    (confirm : Option Bool) : DeleteReply × List ReminderItem :=
  match get_all db none (some idx) none none none none none none with
  | [] => (DeleteReply.notFound, db)
  | item :: _ =>
      if item.recipient_id ≠ caller_id then (DeleteReply.cantDeleteOthers, db)
      else
        match confirm with
        | none => (DeleteReply.timedOut, db)
        | some true =>
            (DeleteReply.deleted, db.filter (fun i => decide (i.idx ≠ item.idx)))
        | some false => (DeleteReply.aborted, db)

/-- C10: a delete request on an existing item by a caller who is not the
item's recipient — the item's author included — is answered with the
rejection message and leaves the store unchanged, whatever the confirmation
outcome would have been. -/
theorem C10_non_recipient_cannot_delete (db : List ReminderItem) (idx : Nat)
    (caller_id : Int) (confirm : Option Bool) (item : ReminderItem)
    (rest : List ReminderItem)
    (hq : get_all db none (some idx) none none none none none none = item :: rest)
    (hne : item.recipient_id ≠ caller_id) :
    reminder_delete db idx caller_id confirm = (DeleteReply.cantDeleteOthers, db) := by
  unfold reminder_delete
  rw [hq]
  simp [hne]

/-- An item authored by user 4 for recipient 5. -/
def authoredItem : ReminderItem :=
  { idx := 12, guild_id := 0, author_id := 4, recipient_id := 5, permalink := "",
    message := "", origin_date := 0, remind_date := 70,
    status := ReminderStatus.WAITING }

/-- C10 witness: the author (user 4) tries to delete the reminder they created
for user 5 and is rejected; the store is untouched. -/
theorem C10_non_recipient_cannot_delete_witness :
    authoredItem.author_id = 4 ∧ authoredItem.recipient_id ≠ (4 : Int) ∧
    reminder_delete [authoredItem] 12 4 (some true)
      = (DeleteReply.cantDeleteOthers, [authoredItem]) :=
  ⟨rfl, by decide,
    C10_non_recipient_cannot_delete [authoredItem] 12 4 (some true) authoredItem []
      rfl (by decide)⟩

set_option maxRecDepth 10000

/-- The fencing delimiter character (codepoint 96). -/
def backquote : Char := Char.ofNat 96

/-- Python's `text.count("```")`: the number of non-overlapping occurrences of
the three-character fencing delimiter, scanning greedily from the left. -/
def pyCount3 : List Char → Nat
  | [] => 0
  | [_] => 0
  | [_, _] => 0
  | c1 :: c2 :: c3 :: rest =>
      if c1 = backquote ∧ c2 = backquote ∧ c3 = backquote then pyCount3 rest + 1
      else pyCount3 (c2 :: c3 :: rest)

/-- The three-character fencing delimiter appended by the truncation. -/
def threeBackquotes : List Char := [backquote, backquote, backquote]

/-- Embedding of `Countdown._process_text` (`src/countdown/module.py:24-30`) on the text's
character list: a text longer than 1024 is cut to its first 1024 characters;
if the cut contains an odd number of fencing delimiters, its last 3 characters
(`text[:-3]`) are replaced by the closing delimiter. -/
def process_text : Option (List Char) → Option (List Char)
  | none => none
  | some text =>
      if 1024 < text.length then
        let t := text.take 1024
        some (if pyCount3 t % 2 ≠ 0 then t.take (t.length - 3) ++ threeBackquotes
          else t)
      else some text

/-- A 1025-character text whose characters 1021..1023 are exactly the fencing
delimiter: the 1024-cut ends with the delimiter and contains one occurrence. -/
def fenceEdgeText : List Char :=
  List.replicate 1021 (Char.ofNat 97) ++ threeBackquotes ++ [Char.ofNat 98]

/-- C9 (counterexample): on `fenceEdgeText` the 1024-cut has an odd delimiter
count, so the code replaces the last 3 characters with the delimiter — which
reproduces the very same string — and the returned text still contains an odd
(1) number of delimiters, refuting the claimed evenness of the result. -/
theorem C9_truncated_fence_count_odd :
    1024 < fenceEdgeText.length ∧
    process_text (some fenceEdgeText)
      = some (fenceEdgeText.take 1021 ++ threeBackquotes) ∧
    pyCount3 ((process_text (some fenceEdgeText)).getD []) % 2 = 1 :=
  ⟨by decide, by decide, by decide⟩

/-- C9 (amended): for a text longer than 1024 characters, the truncation
returns the first 1024 characters unchanged when they contain an even number
of fencing delimiters, and otherwise the first 1021 characters followed by the
delimiter; in every case the result has length exactly 1024 (hence at most
1024).  The delimiter count of the result is not always even. -/
theorem C9_process_text_characterization (text : List Char)
    (h : 1024 < text.length) :
    (pyCount3 (text.take 1024) % 2 = 0 →
      process_text (some text) = some (text.take 1024)) ∧
    (pyCount3 (text.take 1024) % 2 ≠ 0 →
      process_text (some text) = some (text.take 1021 ++ threeBackquotes)) ∧
    (∀ res, process_text (some text) = some res → res.length = 1024) := by
  have hlen : (text.take 1024).length = 1024 := by
    rw [List.length_take]
    omega
  refine ⟨?_, ?_, ?_⟩
  · intro he
    simp [process_text, h, he]
  · intro ho
    simp [process_text, h, ho]
    rw [show 1024 ⊓ text.length - 3 = 1021 from by omega]
    rw [List.take_take]
    norm_num
  · intro res hres
    by_cases hp : pyCount3 (text.take 1024) % 2 = 0
    · simp [process_text, h, hp] at hres
      rw [← hres]
      exact hlen
    · simp [process_text, h, hp] at hres
      rw [← hres]
      simp [List.length_append, List.length_take, threeBackquotes]
      omega

/-- A 1025-character text of plain letters. -/
def plainLongText : List Char := List.replicate 1025 (Char.ofNat 97)

/-- C9 witness: the characterization applied to a concrete over-long text with
an even (zero) delimiter count in its 1024-cut. -/
theorem C9_process_text_characterization_witness :
    1024 < plainLongText.length ∧
    pyCount3 (plainLongText.take 1024) % 2 = 0 ∧
    process_text (some plainLongText) = some (plainLongText.take 1024) :=
  ⟨by decide, by decide,
    (C9_process_text_characterization plainLongText (by decide)).1 (by decide)⟩

end StrawberryReminder
